import Mathlib

/-!
# Session store of gsad (`src/gsad/src/gsad_user.c`)

A shallow embedding of the user/session handling of the Greenbone Security
Assistant daemon, and theorems about it.

## Memory model

`users` is a `GPtrArray` of `user_t *`.  The functions of the file hand out
*copies* (`user_copy`) of the stored records and `g_ptr_array_remove` compares
*pointers*, so the identity of a `user_t` allocation is part of the behaviour
of the code.  A `user_t *` is therefore modelled as a pair of an address and
the record stored at that address, and the array as the list of its elements
in index order.  `g_malloc0` is modelled by `g_malloc0`, which returns an
address that differs from the addresses it is told are live.  Strings are
`Option String`, `none` being the `NULL` pointer.  Clock values and the
session timeout are integers; where the code computes with them, the result is
brought into the range of its C type (`c_int`, `c_time_t`).  Freeing memory
(`user_free`, `g_free`) changes neither the array nor any record that is still
reachable, and is not modelled.  The mutex only serialises the operations; each
operation is modelled as one atomic step on the array.

## Collaborators

Functions that are declared in other files of gsad or in libraries are taken
as parameters: the settings (`get_guest_username`, `get_guest_password`,
`get_session_timeout`), `authenticate_gmp`, `set_language_code`, the clock
`time (NULL)` and the two identifiers that `gvm_uuid_make` returns when a user
is added.
-/

namespace Gsad

/-! ## Data model -/

/-- Address of a `user_t` allocation. -/
abbrev Ptr := Nat

/-- `struct user`: user information structure, for sessions. -/
structure user where
  cookie : Option String
  token : Option String
  username : Option String
  password : Option String
  role : Option String
  timezone : Option String
  severity : Option String
  capabilities : Option String
  language : Option String
  pw_warning : Option String
  address : Option String
  time : Int
  guest : Bool
deriving DecidableEq, Repr

/-- A `user_t *`: the address of the allocation and the record found there. -/
abbrev user_ptr := Ptr × user

/-- The `users` pointer array, in index order. -/
abbrev Users := List user_ptr

/-- Values written by `authenticate_gmp` through its out parameters, with its
return value. -/
structure auth_reply where
  ret : Int
  role : Option String
  timezone : Option String
  severity : Option String
  capabilities : Option String
  language : Option String
  pw_warning : Option String

/-- Settings and collaborators read by the session code. -/
structure Env where
  /-- Result of `get_guest_username ()`; `none` when guest login is off. -/
  guest_username : Option String
  /-- Result of `get_guest_password ()`. -/
  guest_password : Option String
  /-- Result of `get_session_timeout ()`, in minutes. -/
  session_timeout : Int
  /-- The function `authenticate_gmp (username, password, ...)`. -/
  authenticate_gmp : Option String → Option String → auth_reply
  /-- The function `set_language_code (&lang, language)`: the value left in `lang`. -/
  set_language_code : Option String → Option String

/-! Return values of `user_find` (`gsad_user.h`). -/

@[reducible] def USER_OK : Int := 0
@[reducible] def USER_BAD_TOKEN : Int := 1
@[reducible] def USER_EXPIRED_TOKEN : Int := 2
@[reducible] def USER_BAD_MISSING_COOKIE : Int := 3
@[reducible] def USER_BAD_MISSING_TOKEN : Int := 4
@[reducible] def USER_GUEST_LOGIN_FAILED : Int := 5
@[reducible] def USER_GMP_DOWN : Int := 6
@[reducible] def USER_IP_ADDRESS_MISSMATCH : Int := 7
@[reducible] def USER_GUEST_LOGIN_ERROR : Int := -1

/-! ## C integers -/

/-- The value of type `int` (32 bits, two's complement) that an `int`
computation with the mathematical result `x` yields: `x` itself when it is
between -2147483648 and 2147483647, and `x` wrapped around otherwise.  C
leaves the overflow of a signed computation undefined; the wrapped value is
what the machine arithmetic yields. -/
def c_int (x : Int) : Int := (x + 2147483648) % 4294967296 - 2147483648

/-- The value of type `time_t` (64 bits, two's complement) that a `time_t`
computation with the mathematical result `x` yields. -/
def c_time_t (x : Int) : Int :=
  (x + 9223372036854775808) % 18446744073709551616 - 9223372036854775808

/-! ## Library functions -/

/-- Modelled from the spec: `str_equal` is declared in `utils.h`, which is not
among the sources.  The session code uses it to compare two possibly absent
strings for equality ("token == guest", "cookie not equal to the stored
cookie"); it is the comparison `g_strcmp0 (a, b) == 0`, under which two `NULL`s
are equal and `NULL` differs from every string. -/
def str_equal (a b : Option String) : Bool := a == b

/-- GLib `g_malloc0`: an address different from all the addresses in `live`. -/
def g_malloc0 (live : List Ptr) : Ptr := live.foldr max 0 + 1

/-- Addresses held by the array. -/
def Users.ptrs (users : Users) : List Ptr := users.map Prod.fst

/-- GLib `g_ptr_array_remove (array, data)`: removes the first element of the
array that is the pointer `data`; the array is left as it is when no element
is that pointer. -/
def g_ptr_array_remove : Users → Ptr → Users
  | [], _ => []
  | item :: rest, data =>
    if item.1 = data then rest else item :: g_ptr_array_remove rest data

/-- GLib `g_ptr_array_add (array, data)`. -/
def g_ptr_array_add (users : Users) (data : user_ptr) : Users := users ++ [data]

/-! ## The functions of `gsad_user.c` -/

/-- `user_copy`: a new allocation (`user_new`) holding a copy of every field.
`live` are the addresses that are in use when the copy is made. -/
def user_copy (live : List Ptr) (u : user_ptr) : user_ptr := (g_malloc0 live, u.2)

/-- `user_session_expired`: `(time (NULL) - user->time) > (get_session_timeout () * 60)`.
The difference is computed in `time_t` and the product in `int`, which is then
converted to `time_t` for the comparison. -/
def user_session_expired (env : Env) (now : Int) (u : user) : Bool :=
  decide (c_time_t (now - u.time) > c_int (env.session_timeout * 60))

/-- `user_renew_session`: `user->time = time (NULL)`, on the record `user`
points to. -/
def user_renew_session (now : Int) (u : user_ptr) : user_ptr :=
  (u.1, { u.2 with time := now })

/-- `get_user_by_token`: a copy of the first element whose token is `token`. -/
def get_user_by_token (users : Users) (token : Option String) : Option user_ptr :=
  match users.find? (fun item => str_equal item.2.token token) with
  | some item => some (user_copy users.ptrs item)
  | none => none

/-- `get_user_by_username`: a copy of the first element whose username is
`username`. -/
def get_user_by_username (users : Users) (username : Option String) : Option user_ptr :=
  match users.find? (fun item => str_equal item.2.username username) with
  | some item => some (user_copy users.ptrs item)
  | none => none

/-- `user_remove`: `g_ptr_array_remove (users, user)`, then `user_free (user)`. -/
def user_remove (users : Users) (u : user_ptr) : Users :=
  g_ptr_array_remove users u.1

/-- `user_add`.  `uuid1` and `uuid2` are the results of the two calls of
`gvm_uuid_make`, in call order.  Returns the `user` handed to the caller and
the array afterwards. -/
def user_add (env : Env) (now : Int) (uuid1 uuid2 : String) (users : Users)
    (username password timezone severity role capabilities language pw_warning
      address : Option String) : user_ptr × Users :=
  let guest_username := env.guest_username
  let users1 :=
    match get_user_by_username users username with
    | some u => if user_session_expired env now u.2 then user_remove users u else users
    | none => users
  let p := g_malloc0 users1.ptrs
  let u : user :=
    { time := now
      cookie := some uuid1
      token := some uuid2
      username := username
      password := password
      role := role
      timezone := timezone
      severity := severity
      capabilities := capabilities
      pw_warning := pw_warning
      language := env.set_language_code language
      guest := if guest_username.isSome then str_equal username guest_username else false
      address := address }
  ((p, u), g_ptr_array_add users1 (user_copy (p :: users1.ptrs) (p, u)))

/-- What a call of `user_find` leaves behind: its return value, the value
written to `*user_return` (`none` when nothing is written), the array, and the
number of calls made to `authenticate_gmp`. -/
structure find_result where
  ret : Int
  user_return : Option user_ptr
  users : Users
  gmp_calls : Nat

/-- The loop of `user_find` that looks for an existing guest user with the
same cookie. -/
def user_find_guest (users : Users) (cookie : Option String) : Option user_ptr :=
  match users.find? (fun item => item.2.guest && str_equal item.2.cookie cookie) with
  | some item => some (user_copy users.ptrs item)
  | none => none

/-- `user_find`. -/
def user_find (env : Env) (now : Int) (uuid1 uuid2 : String) (users : Users)
    (cookie token address : Option String) : find_result :=
  let guest_username := env.guest_username
  let guest_password := env.guest_password
  if token.isNone then
    ⟨USER_BAD_MISSING_TOKEN, none, users, 0⟩
  else if guest_username.isSome && str_equal token (some "guest") then
    match (if cookie.isSome then user_find_guest users cookie else none) with
    | some u => ⟨USER_OK, some (user_renew_session now u), users, 0⟩
    | none =>
      let r := env.authenticate_gmp guest_username guest_password
      if r.ret = 1 then ⟨USER_GUEST_LOGIN_FAILED, none, users, 1⟩
      else if r.ret = 2 then ⟨USER_GMP_DOWN, none, users, 1⟩
      else if r.ret = -1 then ⟨USER_GUEST_LOGIN_ERROR, none, users, 1⟩
      else
        let a := user_add env now uuid1 uuid2 users guest_username guest_password
          r.timezone r.severity r.role r.capabilities r.language r.pw_warning address
        ⟨USER_OK, some a.1, a.2, 1⟩
  else
    match get_user_by_token users token with
    | some u =>
      if user_session_expired env now u.2 then
        ⟨USER_EXPIRED_TOKEN, none, users, 0⟩
      else if cookie.isNone || !str_equal u.2.cookie cookie then
        ⟨USER_BAD_MISSING_COOKIE, none, users, 0⟩
      else if !str_equal address u.2.address then
        ⟨USER_IP_ADDRESS_MISSMATCH, none, users, 0⟩
      else
        ⟨USER_OK, some (user_renew_session now u), users, 0⟩
    | none => ⟨USER_EXPIRED_TOKEN, none, users, 0⟩

/-- `logout`, given the `token` field of the credentials.  Returns the return
value and the array afterwards. -/
def logout (users : Users) (token : Option String) : Int × Users :=
  if token.isNone then (0, users)
  else
    match get_user_by_token users token with
    | some u => (0, user_remove users u)
    | none => (-1, users)

/-- `init_users`: `users = g_ptr_array_new ()`. -/
def init_users : Users := []

/-- What a setter leaves behind: its return value, the array, and the
allocation that the new value was written to (`none` when the token was not
found).  That allocation is the copy made by `get_user_by_token`; the setter
neither frees it nor stores it anywhere. -/
structure set_result where
  ret : Int
  users : Users
  written : Option user_ptr

/-- `user_set_timezone`. -/
def user_set_timezone (users : Users) (token timezone : Option String) : set_result :=
  match get_user_by_token users token with
  | some u => ⟨0, users, some (u.1, { u.2 with timezone := timezone })⟩
  | none => ⟨1, users, none⟩

/-- `user_set_password`: the password is replaced and the password warning is
cleared. -/
def user_set_password (users : Users) (token password : Option String) : set_result :=
  match get_user_by_token users token with
  | some u => ⟨0, users, some (u.1, { u.2 with password := password, pw_warning := none })⟩
  | none => ⟨1, users, none⟩

/-- `user_set_severity`. -/
def user_set_severity (users : Users) (token severity : Option String) : set_result :=
  match get_user_by_token users token with
  | some u => ⟨0, users, some (u.1, { u.2 with severity := severity })⟩
  | none => ⟨1, users, none⟩

/-- `user_set_language`: the language is set through `set_language_code`. -/
def user_set_language (env : Env) (users : Users) (token language : Option String) :
    set_result :=
  match get_user_by_token users token with
  | some u => ⟨0, users, some (u.1, { u.2 with language := env.set_language_code language })⟩
  | none => ⟨1, users, none⟩

/-- The test of the loop of `user_logout_all_sessions`:
`str_equal (item->username, username) && !str_equal (item->token, credentials->token)`. -/
def logout_all_match (username token : Option String) (item : user_ptr) : Bool :=
  str_equal item.2.username username && !str_equal item.2.token token

/-- The `for` loop of `user_logout_all_sessions`, from the state in which the
array is `users` and the loop variable is `index`.  An element that matches is
removed with `g_ptr_array_remove` and `index` is decremented before the
increment of the loop, so that the same index is looked at again.  The first
argument bounds the number of iterations; `none` means that the bound was
reached before the loop ended. -/
def user_logout_all_sessions_loop (username token : Option String) :
    Nat → Users → Nat → Option Users
  | 0, _, _ => none
  | fuel + 1, users, index =>
    match users[index]? with
    | none => some users
    | some item =>
      if logout_all_match username token item then
        user_logout_all_sessions_loop username token fuel
          (g_ptr_array_remove users item.1) index
      else
        user_logout_all_sessions_loop username token fuel users (index + 1)

/-- `user_logout_all_sessions`, given the `token` field of the credentials.
Returns the return value and the array afterwards.  Every iteration of the loop
removes an element or moves to the next index, so that one more iteration than
the array has elements is enough. -/
def user_logout_all_sessions (users : Users) (username token : Option String) :
    Option (Int × Users) :=
  match user_logout_all_sessions_loop username token (users.length + 1) users 0 with
  | some users1 => some (0, users1)
  | none => none

/-- `credentials_t` (`gsad_user.h`).  `cmd_start` is the pair of `tv_sec` and
`tv_usec`; `last_filt_ids` and `params` are pointers, `none` being `NULL`;
`guest` is an `int` that holds 0 or 1. -/
structure credentials_t where
  cmd_start : Int × Int
  username : Option String
  password : Option String
  role : Option String
  timezone : Option String
  token : Option String
  caller : Option String
  current_page : Option String
  capabilities : Option String
  language : Option String
  severity : Option String
  pw_warning : Option String
  client_address : Option String
  last_filt_ids : Option Ptr
  params : Option Ptr
  guest : Bool
  sid : Option String
deriving DecidableEq, Repr

/-- `credentials_new`.  The structure comes from `g_malloc0`, so the fields
that are not assigned are zero.  `none` is returned when one of the `assert`s
fails. -/
def credentials_new (u : user_ptr) (language client_address : Option String) :
    Option credentials_t :=
  if u.2.username.isSome && u.2.password.isSome && u.2.role.isSome && u.2.timezone.isSome
      && u.2.capabilities.isSome && u.2.token.isSome then
    some
      { cmd_start := (0, 0)
        caller := none
        current_page := none
        last_filt_ids := none
        params := none
        username := u.2.username
        password := u.2.password
        role := u.2.role
        timezone := u.2.timezone
        severity := u.2.severity
        capabilities := u.2.capabilities
        token := u.2.token
        pw_warning := u.2.pw_warning
        language := language
        client_address := client_address
        guest := u.2.guest
        sid := u.2.cookie }
  else none

/-- No two elements of the array have the same token and no two have the same
cookie. -/
def unique_ids (users : Users) : Prop :=
  (users.map (fun item => item.2.token)).Nodup ∧ (users.map (fun item => item.2.cookie)).Nodup

instance (users : Users) : Decidable (unique_ids users) := by
  unfold unique_ids; infer_instance

/-! ## Example data -/

/-- An environment with guest login on, a timeout of 15 minutes and a backend
that accepts the guest. -/
def sample_env : Env where
  guest_username := some "guest_user"
  guest_password := some "guest_pw"
  session_timeout := 15
  authenticate_gmp := fun _ _ =>
    ⟨0, some "Guest", some "UTC", some "nist", some "get_tasks", some "en", none⟩
  set_language_code := fun language => language

/-- An environment like `sample_env` with a timeout of 35791395 minutes, the
least number of minutes whose product with 60 is not an `int`. -/
def long_timeout_env : Env where
  guest_username := some "guest_user"
  guest_password := some "guest_pw"
  session_timeout := 35791395
  authenticate_gmp := fun _ _ =>
    ⟨0, some "Guest", some "UTC", some "nist", some "get_tasks", some "en", none⟩
  set_language_code := fun language => language

/-- A session of the user alice, last renewed at time 0. -/
def alice : user where
  cookie := some "ck-a"
  token := some "tok-a"
  username := some "alice"
  password := some "secret"
  role := some "Admin"
  timezone := some "UTC"
  severity := some "nist"
  capabilities := some "everything"
  language := some "en"
  pw_warning := none
  address := some "10.0.0.1"
  time := 0
  guest := false

/-- A session of the guest user, last renewed at time 0. -/
def guest_session : user where
  cookie := some "ck-g"
  token := some "tok-g"
  username := some "guest_user"
  password := some "guest_pw"
  role := some "Guest"
  timezone := some "UTC"
  severity := some "nist"
  capabilities := some "get_tasks"
  language := some "en"
  pw_warning := none
  address := some "10.0.0.2"
  time := 0
  guest := true

/-- An array with the two sessions above. -/
def sample_users : Users := [(1, alice), (2, guest_session)]

/-- A second session of alice, from another browser. -/
def alice_second : user where
  cookie := some "ck-a2"
  token := some "tok-a2"
  username := some "alice"
  password := some "secret"
  role := some "Admin"
  timezone := some "UTC"
  severity := some "nist"
  capabilities := some "everything"
  language := some "en"
  pw_warning := none
  address := some "10.0.0.7"
  time := 5
  guest := false

/-- A third session of alice. -/
def alice_third : user where
  cookie := some "ck-a3"
  token := some "tok-a3"
  username := some "alice"
  password := some "secret"
  role := some "Admin"
  timezone := some "UTC"
  severity := some "nist"
  capabilities := some "everything"
  language := some "en"
  pw_warning := none
  address := some "10.0.0.8"
  time := 7
  guest := false

/-- An array in which two sessions of alice that are not the current one are
next to each other. -/
def crowded_users : Users :=
  [(1, alice_second), (2, alice_third), (3, guest_session), (4, alice)]

/-- An environment like `sample_env` whose backend answers with the value `ret`. -/
def env_with_reply (ret : Int) : Env where
  guest_username := some "guest_user"
  guest_password := some "guest_pw"
  session_timeout := 15
  authenticate_gmp := fun _ _ =>
    ⟨ret, some "Guest", some "UTC", some "nist", some "get_tasks", some "en", none⟩
  set_language_code := fun language => language

/-! ## Auxiliary facts -/

theorem c_int_of_range (x : Int) (h1 : -2147483648 ≤ x) (h2 : x < 2147483648) :
    c_int x = x := by
  unfold c_int
  omega

theorem c_time_t_of_range (x : Int) (h1 : -9223372036854775808 ≤ x)
    (h2 : x < 9223372036854775808) : c_time_t x = x := by
  unfold c_time_t
  omega

/-- The expiry test is `now - time > session_timeout * 60` when the product is
an `int` and the difference a `time_t`. -/
theorem user_session_expired_of_range (env : Env) (now : Int) (u : user)
    (ht1 : -35791394 ≤ env.session_timeout) (ht2 : env.session_timeout ≤ 35791394)
    (hd1 : -9223372036854775808 ≤ now - u.time) (hd2 : now - u.time < 9223372036854775808) :
    user_session_expired env now u = decide (now - u.time > env.session_timeout * 60) := by
  unfold user_session_expired
  rw [c_int_of_range _ (by omega) (by omega), c_time_t_of_range _ hd1 hd2]

theorem le_foldr_max (l : List Nat) (p : Nat) (h : p ∈ l) : p ≤ l.foldr max 0 := by
  induction l with
  | nil => cases h
  | cons a l ih =>
    simp only [List.foldr_cons]
    rcases List.mem_cons.mp h with rfl | h
    · exact le_max_left _ _
    · exact le_trans (ih h) (le_max_right _ _)

theorem g_malloc0_not_mem (live : List Ptr) : g_malloc0 live ∉ live := by
  intro h
  have := le_foldr_max live _ h
  unfold g_malloc0 at this
  omega

theorem g_ptr_array_remove_of_not_mem (users : Users) (p : Ptr) (h : p ∉ users.ptrs) :
    g_ptr_array_remove users p = users := by
  induction users with
  | nil => rfl
  | cons item rest ih =>
    simp only [Users.ptrs, List.map_cons, List.mem_cons, not_or] at h
    have h1 : ¬ item.1 = p := fun e => h.1 e.symm
    simp only [g_ptr_array_remove, h1, if_false]
    rw [ih h.2]

/-- Removing a copy that was just taken from the array removes nothing: the
copy is a new allocation and no element of the array is that pointer. -/
theorem user_remove_copy (users : Users) (item : user_ptr) :
    user_remove users (user_copy users.ptrs item) = users :=
  g_ptr_array_remove_of_not_mem users _ (g_malloc0_not_mem _)

theorem get_user_by_token_some (users : Users) (token : Option String) (u : user_ptr)
    (h : get_user_by_token users token = some u) :
    ∃ item, users.find? (fun item => str_equal item.2.token token) = some item ∧
      u = user_copy users.ptrs item := by
  unfold get_user_by_token at h
  split at h
  · next item hf => exact ⟨item, hf, by simpa using h.symm⟩
  · cases h

theorem get_user_by_username_some (users : Users) (name : Option String) (u : user_ptr)
    (h : get_user_by_username users name = some u) :
    ∃ item, users.find? (fun item => str_equal item.2.username name) = some item ∧
      u = user_copy users.ptrs item := by
  unfold get_user_by_username at h
  split at h
  · next item hf => exact ⟨item, hf, by simpa using h.symm⟩
  · cases h

theorem get_user_by_token_none (users : Users) (token : Option String)
    (h : ∀ item ∈ users, item.2.token ≠ token) : get_user_by_token users token = none := by
  have : users.find? (fun item => str_equal item.2.token token) = none := by
    rw [List.find?_eq_none]
    intro item hi
    simpa [str_equal] using h item hi
  simp [get_user_by_token, this]

/-- The array after `user_add`: the old elements, then a copy of the new user.
The removal of an expired session of the same name never removes anything. -/
theorem user_add_users (env : Env) (now : Int) (uuid1 uuid2 : String) (users : Users)
    (username password timezone severity role capabilities language pw_warning
      address : Option String) :
    ∃ q, (user_add env now uuid1 uuid2 users username password timezone severity role
        capabilities language pw_warning address).2 =
      users ++ [(q, (user_add env now uuid1 uuid2 users username password timezone severity
        role capabilities language pw_warning address).1.2)] := by
  have h1 : (match get_user_by_username users username with
      | some u => if user_session_expired env now u.2 then user_remove users u else users
      | none => users) = users := by
    cases hg : get_user_by_username users username with
    | none => rfl
    | some u =>
      obtain ⟨item, _, rfl⟩ := get_user_by_username_some _ _ _ hg
      simp only [user_remove_copy, ite_self]
  simp only [user_add, h1, g_ptr_array_add, user_copy]
  exact ⟨_, rfl⟩

theorem user_add_fields (env : Env) (now : Int) (uuid1 uuid2 : String) (users : Users)
    (username password timezone severity role capabilities language pw_warning
      address : Option String) :
    let s := (user_add env now uuid1 uuid2 users username password timezone severity role
        capabilities language pw_warning address).1.2
    s.cookie = some uuid1 ∧ s.token = some uuid2 ∧ s.address = address ∧ s.time = now := by
  simp [user_add]

/-- The part of `user_find` after the guest block, reached when the token is
present and the guest block is not entered. -/
theorem user_find_lookup (env : Env) (now : Int) (uuid1 uuid2 : String) (users : Users)
    (cookie address : Option String) (t : String)
    (hg : env.guest_username = none ∨ t ≠ "guest") :
    user_find env now uuid1 uuid2 users cookie (some t) address =
      match get_user_by_token users (some t) with
      | some u =>
        if user_session_expired env now u.2 then
          ⟨USER_EXPIRED_TOKEN, none, users, 0⟩
        else if cookie.isNone || !str_equal u.2.cookie cookie then
          ⟨USER_BAD_MISSING_COOKIE, none, users, 0⟩
        else if !str_equal address u.2.address then
          ⟨USER_IP_ADDRESS_MISSMATCH, none, users, 0⟩
        else
          ⟨USER_OK, some (user_renew_session now u), users, 0⟩
      | none => ⟨USER_EXPIRED_TOKEN, none, users, 0⟩ := by
  have h : (env.guest_username.isSome && str_equal (some t) (some "guest")) = false := by
    rcases hg with h | h
    · simp [h]
    · simp [str_equal, h]
  simp only [user_find, Option.isNone_some, h]
  simp

/-! ## Validation of a session that was just added -/

/-- C1 fails as stated: with a timeout of 35791395 minutes, which is not
negative, the product with 60 is not an `int`; alice logs in with a new token
at the sample store and `user_find`, called at once with the cookie, token and
address of the new session, returns `USER_EXPIRED_TOKEN`. -/
theorem user_find_after_user_add_long_timeout :
    (∀ item ∈ sample_users, item.2.token ≠ some "tok-b") ∧ "tok-b" ≠ "guest" ∧
      0 ≤ long_timeout_env.session_timeout ∧
      (user_find long_timeout_env 50 "ck-c" "tok-c"
        (user_add long_timeout_env 50 "ck-b" "tok-b" sample_users (some "alice")
          (some "secret") (some "UTC") (some "nist") (some "Admin") (some "everything")
          (some "en") none (some "10.0.0.1")).2
        (some "ck-b") (some "tok-b") (some "10.0.0.1")).ret = USER_EXPIRED_TOKEN := by
  decide

/-- C1, amended: for every store and argument list, when `user_add` is given a
new token that no stored session has and that is not "guest", the session
timeout is between 0 and 35791394 minutes (so that its product with 60 is an
`int`) and no time elapses, `user_find` called with the cookie, token and
address of the returned session returns `USER_OK` and a session with the same
token. -/
theorem user_find_after_user_add (env : Env) (now : Int) (uuid1 uuid2 uuid3 uuid4 : String)
    (users : Users)
    (username password timezone severity role capabilities language pw_warning
      address : Option String)
    (hfresh : ∀ item ∈ users, item.2.token ≠ some uuid2)
    (hguest : uuid2 ≠ "guest")
    (htimeout : 0 ≤ env.session_timeout)
    (hbound : env.session_timeout ≤ 35791394) :
    let S := user_add env now uuid1 uuid2 users username password timezone severity role
      capabilities language pw_warning address
    let v := user_find env now uuid3 uuid4 S.2 S.1.2.cookie S.1.2.token S.1.2.address
    S.1.2.token = some uuid2 ∧ v.ret = USER_OK ∧
      ∃ s, v.user_return = some s ∧ s.2.token = S.1.2.token := by
  intro S v
  obtain ⟨q, hq⟩ := user_add_users env now uuid1 uuid2 users username password timezone
    severity role capabilities language pw_warning address
  obtain ⟨hc, ht, _, htime⟩ := user_add_fields env now uuid1 uuid2 users username password
    timezone severity role capabilities language pw_warning address
  change S.2 = users ++ [(q, S.1.2)] at hq
  change S.1.2.cookie = some uuid1 at hc
  change S.1.2.token = some uuid2 at ht
  change S.1.2.time = now at htime
  have hnone : users.find? (fun item => str_equal item.2.token (some uuid2)) = none := by
    rw [List.find?_eq_none]
    intro item hi
    simpa [str_equal] using hfresh item hi
  have hfind : get_user_by_token S.2 (some uuid2) = some (user_copy S.2.ptrs (q, S.1.2)) := by
    rw [get_user_by_token, hq, List.find?_append, hnone]
    simp [str_equal, ht]
  have hv : v = user_find env now uuid3 uuid4 S.2 (some uuid1) (some uuid2) S.1.2.address := by
    simp only [v, hc, ht]
  have hexp : user_session_expired env now S.1.2 = false := by
    rw [user_session_expired_of_range env now S.1.2 (by omega) hbound
      (by rw [htime]; omega) (by rw [htime]; omega)]
    simp only [htime, sub_self, decide_eq_false_iff_not, not_lt, gt_iff_lt]
    omega
  rw [hv, user_find_lookup env now uuid3 uuid4 S.2 _ _ uuid2 (Or.inr hguest), hfind]
  simp [user_copy, hexp, str_equal, hc, ht, user_renew_session]

/-- Witness of the amended C1 at the sample store: alice logs in a second
time. -/
theorem user_find_after_user_add_witness :
    (∀ item ∈ sample_users, item.2.token ≠ some "tok-b") ∧ "tok-b" ≠ "guest" ∧
      0 ≤ sample_env.session_timeout ∧ sample_env.session_timeout ≤ 35791394 ∧
      (user_find sample_env 50 "ck-c" "tok-c"
        (user_add sample_env 50 "ck-b" "tok-b" sample_users (some "alice") (some "secret")
          (some "UTC") (some "nist") (some "Admin") (some "everything") (some "en") none
          (some "10.0.0.1")).2
        (some "ck-b") (some "tok-b") (some "10.0.0.1")).ret = USER_OK :=
  ⟨by decide, by decide, by decide, by decide,
    (user_find_after_user_add sample_env 50 "ck-b" "tok-b" "ck-c" "tok-c" sample_users
      (some "alice") (some "secret") (some "UTC") (some "nist") (some "Admin")
      (some "everything") (some "en") none (some "10.0.0.1")
      (by decide) (by decide) (by decide) (by decide)).2.1⟩

/-! ## Logout -/

/-- The array is the same before and after `logout`, whatever the token: the
session handed to `user_remove` is a copy, and no element of the array is that
pointer. -/
theorem logout_users (users : Users) (token : Option String) :
    (logout users token).2 = users := by
  unfold logout
  split
  · rfl
  · cases hg : get_user_by_token users token with
    | none => rfl
    | some u =>
      obtain ⟨item, _, rfl⟩ := get_user_by_token_some _ _ _ hg
      exact user_remove_copy users item

/-- C2: in the store that holds the session of alice, `logout` with the token
of that session returns 0 and leaves the array as it was; `get_user_by_token`
still finds the session afterwards. -/
theorem logout_keeps_session :
    (logout [(1, alice)] (some "tok-a")).1 = 0 ∧
      (logout [(1, alice)] (some "tok-a")).2 = [(1, alice)] ∧
      (get_user_by_token (logout [(1, alice)] (some "tok-a")).2 (some "tok-a")).map Prod.snd
        = some alice := by
  decide

/-! ## Renewal -/

/-- C3: in the store that holds the session of alice (last renewed at 0),
`user_find` at time 10 with her cookie, token and address returns `USER_OK` and
a session renewed at 10, while the session in the array keeps time 0. -/
theorem user_find_ok_keeps_stored_time :
    (user_find sample_env 10 "ck-c" "tok-c" [(1, alice)] (some "ck-a") (some "tok-a")
        (some "10.0.0.1")).ret = USER_OK ∧
      (user_find sample_env 10 "ck-c" "tok-c" [(1, alice)] (some "ck-a") (some "tok-a")
        (some "10.0.0.1")).user_return.map (fun s => s.2.time) = some 10 ∧
      (get_user_by_token
        (user_find sample_env 10 "ck-c" "tok-c" [(1, alice)] (some "ck-a") (some "tok-a")
          (some "10.0.0.1")).users (some "tok-a")).map (fun s => s.2.time) = some 0 := by
  decide

/-! ## Expiry -/

/-- C4 fails as stated: with a timeout of 35791395 minutes the product with 60
is not an `int`; for alice, last renewed at 0 and validated at time 0,
`user_find` returns `USER_EXPIRED_TOKEN` although `now - time` is not greater
than `session_timeout * 60`. -/
theorem user_find_expired_long_timeout :
    get_user_by_token sample_users (some "tok-a") = some (3, alice) ∧
      (user_find long_timeout_env 0 "ck-c" "tok-c" sample_users (some "ck-a") (some "tok-a")
        (some "10.0.0.1")).ret = USER_EXPIRED_TOKEN ∧
      ¬ ((0 : Int) - alice.time > long_timeout_env.session_timeout * 60) := by
  decide

/-- C4, amended: when the token is present, the guest block is not entered,
`get_user_by_token` finds a session for the token, the session timeout is
between -35791394 and 35791394 minutes (so that its product with 60 is an
`int`) and `now - time` is a `time_t`, `user_find` returns `USER_EXPIRED_TOKEN`
exactly when `now - time > session_timeout * 60`, whatever the cookie and
address; at `now - time = session_timeout * 60` with the cookie and address of
the session it returns `USER_OK`. -/
theorem user_find_expired_iff (env : Env) (now : Int) (uuid1 uuid2 : String) (users : Users)
    (cookie address : Option String) (t : String) (u : user_ptr)
    (hg : env.guest_username = none ∨ t ≠ "guest")
    (hf : get_user_by_token users (some t) = some u)
    (ht1 : -35791394 ≤ env.session_timeout) (ht2 : env.session_timeout ≤ 35791394)
    (hd1 : -9223372036854775808 ≤ now - u.2.time)
    (hd2 : now - u.2.time < 9223372036854775808) :
    ((user_find env now uuid1 uuid2 users cookie (some t) address).ret = USER_EXPIRED_TOKEN ↔
        now - u.2.time > env.session_timeout * 60) ∧
      (now - u.2.time = env.session_timeout * 60 → cookie.isSome → cookie = u.2.cookie →
        address = u.2.address →
        (user_find env now uuid1 uuid2 users cookie (some t) address).ret = USER_OK) := by
  have hx := user_session_expired_of_range env now u.2 ht1 ht2 hd1 hd2
  rw [user_find_lookup env now uuid1 uuid2 users cookie address t hg, hf]
  constructor
  · by_cases he : now - u.2.time > env.session_timeout * 60
    · simp [hx, he]
    · simp only [hx, he, decide_False, Bool.false_eq_true, if_false, iff_false]
      split_ifs <;> simp
  · intro he hc hce hae
    have he2 : ¬ (now - u.2.time > env.session_timeout * 60) := by omega
    obtain ⟨c, rfl⟩ := Option.isSome_iff_exists.mp hc
    simp [hx, he2, str_equal, ← hce, hae]

/-- Witness of the amended C4: alice, last renewed at 0, validated at time 900
with a timeout of 15 minutes. -/
theorem user_find_expired_iff_witness :
    (sample_env.guest_username = none ∨ "tok-a" ≠ "guest") ∧
      get_user_by_token sample_users (some "tok-a") = some (3, alice) ∧
      -35791394 ≤ sample_env.session_timeout ∧ sample_env.session_timeout ≤ 35791394 ∧
      -9223372036854775808 ≤ (900 : Int) - alice.time ∧
      (900 : Int) - alice.time < 9223372036854775808 ∧
      ((user_find sample_env 900 "ck-c" "tok-c" sample_users (some "ck-a") (some "tok-a")
          (some "10.0.0.1")).ret = USER_EXPIRED_TOKEN ↔
        (900 : Int) - alice.time > sample_env.session_timeout * 60) ∧
      (user_find sample_env 900 "ck-c" "tok-c" sample_users (some "ck-a") (some "tok-a")
          (some "10.0.0.1")).ret = USER_OK :=
  ⟨by decide, by decide, by decide, by decide, by decide, by decide,
    (user_find_expired_iff sample_env 900 "ck-c" "tok-c" sample_users (some "ck-a")
      (some "10.0.0.1") "tok-a" (3, alice) (by decide) (by decide) (by decide) (by decide)
      (by decide) (by decide)).1,
    (user_find_expired_iff sample_env 900 "ck-c" "tok-c" sample_users (some "ck-a")
      (some "10.0.0.1") "tok-a" (3, alice) (by decide) (by decide) (by decide) (by decide)
      (by decide) (by decide)).2
      (by decide) (by decide) (by decide) (by decide)⟩

/-- C5 fails as stated: alice, last renewed at 0, is expired at time 901 (the
timeout is 15 minutes); `user_find` with her token returns
`USER_EXPIRED_TOKEN`, and `get_user_by_token` still finds her session in the
array afterwards. -/
theorem user_find_expired_not_removed :
    user_session_expired sample_env 901 alice = true ∧
      (user_find sample_env 901 "ck-c" "tok-c" [(1, alice)] (some "ck-a") (some "tok-a")
        (some "10.0.0.1")).ret = USER_EXPIRED_TOKEN ∧
      get_user_by_token
        (user_find sample_env 901 "ck-c" "tok-c" [(1, alice)] (some "ck-a") (some "tok-a")
          (some "10.0.0.1")).users (some "tok-a") ≠ none := by
  decide

/-- C5, amended: when `user_find` finds the session for the token and the
session is expired (`user_session_expired` holds of it), it returns
`USER_EXPIRED_TOKEN` and no session, and the array is left as it was, so that
`get_user_by_token` finds the session afterwards as it did before. -/
theorem user_find_expired_keeps_session (env : Env) (now : Int) (uuid1 uuid2 : String)
    (users : Users) (cookie address : Option String) (t : String) (u : user_ptr)
    (hg : env.guest_username = none ∨ t ≠ "guest")
    (hf : get_user_by_token users (some t) = some u)
    (hexp : user_session_expired env now u.2 = true) :
    (user_find env now uuid1 uuid2 users cookie (some t) address).ret = USER_EXPIRED_TOKEN ∧
      (user_find env now uuid1 uuid2 users cookie (some t) address).user_return = none ∧
      (user_find env now uuid1 uuid2 users cookie (some t) address).users = users ∧
      get_user_by_token (user_find env now uuid1 uuid2 users cookie (some t) address).users
        (some t) = some u := by
  rw [user_find_lookup env now uuid1 uuid2 users cookie address t hg, hf]
  simp [hexp, hf]

/-- Witness of the amended C5: alice, expired at time 2000. -/
theorem user_find_expired_keeps_session_witness :
    (sample_env.guest_username = none ∨ "tok-a" ≠ "guest") ∧
      get_user_by_token sample_users (some "tok-a") = some (3, alice) ∧
      user_session_expired sample_env 2000 alice = true ∧
      (user_find sample_env 2000 "ck-c" "tok-c" sample_users none (some "tok-a") none).users
        = sample_users :=
  ⟨by decide, by decide, by decide,
    (user_find_expired_keeps_session sample_env 2000 "ck-c" "tok-c" sample_users none none
      "tok-a" (3, alice) (by decide) (by decide) (by decide)).2.2.1⟩

/-! ## Cookie and address checks -/

/-- C8 fails as stated: with the empty string as token, `user_find` on the
sample store returns `USER_EXPIRED_TOKEN`, not `USER_BAD_MISSING_TOKEN`. -/
theorem user_find_empty_token_not_missing :
    (user_find sample_env 100 "ck-c" "tok-c" sample_users (some "ck-a") (some "")
        (some "10.0.0.1")).ret = USER_EXPIRED_TOKEN ∧
      (user_find sample_env 100 "ck-c" "tok-c" sample_users (some "ck-a") (some "")
        (some "10.0.0.1")).ret ≠ USER_BAD_MISSING_TOKEN := by
  decide

/-- C8, amended: for every store, cookie and address, `user_find` with an
absent token returns `USER_BAD_MISSING_TOKEN`, writes no session, leaves the
array as it was and does not call `authenticate_gmp`; the empty string is a
present token, looked up like any other: when no stored session has the empty
token the result is `USER_EXPIRED_TOKEN`. -/
theorem user_find_missing_token (env : Env) (now : Int) (uuid1 uuid2 : String)
    (users : Users) (cookie address : Option String) :
    ((user_find env now uuid1 uuid2 users cookie none address).ret = USER_BAD_MISSING_TOKEN ∧
      (user_find env now uuid1 uuid2 users cookie none address).user_return = none ∧
      (user_find env now uuid1 uuid2 users cookie none address).users = users ∧
      (user_find env now uuid1 uuid2 users cookie none address).gmp_calls = 0) ∧
    ((∀ item ∈ users, item.2.token ≠ some "") →
      (user_find env now uuid1 uuid2 users cookie (some "") address).ret
        = USER_EXPIRED_TOKEN) := by
  refine ⟨by simp [user_find], fun h => ?_⟩
  rw [user_find_lookup env now uuid1 uuid2 users cookie address "" (Or.inr (by decide)),
    get_user_by_token_none users (some "") h]

/-- Witness of the amended C8 at the sample store. -/
theorem user_find_missing_token_witness :
    (∀ item ∈ sample_users, item.2.token ≠ some "") ∧
      (user_find sample_env 100 "ck-c" "tok-c" sample_users (some "ck-a") none
        (some "10.0.0.1")).ret = USER_BAD_MISSING_TOKEN ∧
      (user_find sample_env 100 "ck-c" "tok-c" sample_users (some "ck-a") (some "")
        (some "10.0.0.1")).ret = USER_EXPIRED_TOKEN :=
  ⟨by decide,
    (user_find_missing_token sample_env 100 "ck-c" "tok-c" sample_users (some "ck-a")
      (some "10.0.0.1")).1.1,
    (user_find_missing_token sample_env 100 "ck-c" "tok-c" sample_users (some "ck-a")
      (some "10.0.0.1")).2 (by decide)⟩

/-- C9: for a present token that does not enter the guest block and that no
stored session has, `user_find` returns `USER_EXPIRED_TOKEN` (which is not
`USER_BAD_TOKEN`), writes no session and leaves the array as it was. -/
theorem user_find_unknown_token (env : Env) (now : Int) (uuid1 uuid2 : String)
    (users : Users) (cookie address : Option String) (t : String)
    (hg : env.guest_username = none ∨ t ≠ "guest")
    (hno : ∀ item ∈ users, item.2.token ≠ some t) :
    (user_find env now uuid1 uuid2 users cookie (some t) address).ret = USER_EXPIRED_TOKEN ∧
      (user_find env now uuid1 uuid2 users cookie (some t) address).ret ≠ USER_BAD_TOKEN ∧
      (user_find env now uuid1 uuid2 users cookie (some t) address).user_return = none ∧
      (user_find env now uuid1 uuid2 users cookie (some t) address).users = users := by
  rw [user_find_lookup env now uuid1 uuid2 users cookie address t hg,
    get_user_by_token_none users (some t) hno]
  simp

/-- Witness of C9: a token that was never issued, at the sample store. -/
theorem user_find_unknown_token_witness :
    (sample_env.guest_username = none ∨ "tok-z" ≠ "guest") ∧
      (∀ item ∈ sample_users, item.2.token ≠ some "tok-z") ∧
      (user_find sample_env 100 "ck-c" "tok-c" sample_users (some "ck-a") (some "tok-z")
        (some "10.0.0.1")).ret = USER_EXPIRED_TOKEN :=
  ⟨by decide, by decide,
    (user_find_unknown_token sample_env 100 "ck-c" "tok-c" sample_users (some "ck-a")
      (some "10.0.0.1") "tok-z" (by decide) (by decide)).1⟩

/-! ## Returning guests -/

/-- The guest block of `user_find` when the loop over the array finds a guest
session with the cookie: the copy is renewed and returned, the array is not
touched and `authenticate_gmp` is not called. -/
theorem user_find_guest_found (env : Env) (now : Int) (uuid1 uuid2 : String) (users : Users)
    (g C : String) (address : Option String) (item : user_ptr)
    (hen : env.guest_username = some g)
    (hfind : users.find? (fun item => item.2.guest && str_equal item.2.cookie (some C))
      = some item) :
    user_find env now uuid1 uuid2 users (some C) (some "guest") address =
      ⟨USER_OK, some (user_renew_session now (user_copy users.ptrs item)), users, 0⟩ := by
  have hgf : user_find_guest users (some C) = some (user_copy users.ptrs item) := by
    rw [user_find_guest, hfind]
  simp [user_find, hen, hgf, str_equal]

/-- C10: with guest login on and a guest-flagged session with cookie `C` in the
store (expired or not), two successive calls of `user_find` with cookie `C` and
token "guest" both return `USER_OK` with a copy of the same stored session
(same token), make no call to `authenticate_gmp` and leave the array as it
was, so that the number of records is unchanged. -/
theorem user_find_guest_reuse (env : Env) (now1 now2 : Int)
    (uuid1 uuid2 uuid3 uuid4 : String) (users : Users) (g C : String)
    (address : Option String)
    (hen : env.guest_username = some g)
    (hex : ∃ item ∈ users, item.2.guest = true ∧ item.2.cookie = some C) :
    let r1 := user_find env now1 uuid1 uuid2 users (some C) (some "guest") address
    let r2 := user_find env now2 uuid3 uuid4 r1.users (some C) (some "guest") address
    r1.ret = USER_OK ∧ r2.ret = USER_OK ∧
      (∃ s1 s2, r1.user_return = some s1 ∧ r2.user_return = some s2 ∧
        s1.2.token = s2.2.token ∧ s1.2.cookie = some C ∧ s2.2.cookie = some C ∧
        s1.2.guest = true ∧ s2.2.guest = true) ∧
      r1.gmp_calls = 0 ∧ r2.gmp_calls = 0 ∧
      r1.users = users ∧ r2.users = users ∧ r2.users.length = users.length := by
  intro r1 r2
  have hsome : (users.find? (fun item => item.2.guest && str_equal item.2.cookie (some C))).isSome
      = true := by
    rw [List.find?_isSome]
    obtain ⟨item, hi, hguest, hc⟩ := hex
    exact ⟨item, hi, by simp [hguest, hc, str_equal]⟩
  obtain ⟨item, hfind⟩ := Option.isSome_iff_exists.mp hsome
  have hp := List.find?_some hfind
  simp only [Bool.and_eq_true, str_equal, beq_iff_eq] at hp
  have h1 : r1 = ⟨USER_OK, some (user_renew_session now1 (user_copy users.ptrs item)), users, 0⟩ :=
    user_find_guest_found env now1 uuid1 uuid2 users g C address item hen hfind
  have h2 : r2 = ⟨USER_OK, some (user_renew_session now2 (user_copy users.ptrs item)), users, 0⟩ := by
    simp only [r2, h1]
    exact user_find_guest_found env now2 uuid3 uuid4 users g C address item hen hfind
  rw [h2, h1]
  simp [user_renew_session, user_copy, hp.1, hp.2]

/-- Witness of C10: the guest of the sample store comes back twice. -/
theorem user_find_guest_reuse_witness :
    sample_env.guest_username = some "guest_user" ∧
      (∃ item ∈ sample_users, item.2.guest = true ∧ item.2.cookie = some "ck-g") ∧
      (user_find sample_env 200 "ck-d" "tok-d"
        (user_find sample_env 100 "ck-c" "tok-c" sample_users (some "ck-g") (some "guest")
          (some "10.0.0.2")).users
        (some "ck-g") (some "guest") (some "10.0.0.2")).ret = USER_OK ∧
      (user_find sample_env 200 "ck-d" "tok-d"
        (user_find sample_env 100 "ck-c" "tok-c" sample_users (some "ck-g") (some "guest")
          (some "10.0.0.2")).users
        (some "ck-g") (some "guest") (some "10.0.0.2")).users.length = sample_users.length :=
  ⟨by decide, by decide,
    (user_find_guest_reuse sample_env 100 200 "ck-c" "tok-c" "ck-d" "tok-d" sample_users
      "guest_user" "ck-g" (some "10.0.0.2") (by decide) (by decide)).2.1,
    (user_find_guest_reuse sample_env 100 200 "ck-c" "tok-c" "ck-d" "tok-d" sample_users
      "guest_user" "ck-g" (some "10.0.0.2") (by decide) (by decide)).2.2.2.2.2.2.2⟩

/-! ## New guests -/

/-- The array after `user_add` is the old array followed by one element, a new
allocation that holds the record handed to the caller. -/
theorem user_add_appends (env : Env) (now : Int) (uuid1 uuid2 : String) (users : Users)
    (username password timezone severity role capabilities language pw_warning
      address : Option String) :
    ∃ q, q ∉ users.ptrs ∧
      (user_add env now uuid1 uuid2 users username password timezone severity role
        capabilities language pw_warning address).2 =
      users ++ [(q, (user_add env now uuid1 uuid2 users username password timezone severity
        role capabilities language pw_warning address).1.2)] := by
  have h1 : (match get_user_by_username users username with
      | some u => if user_session_expired env now u.2 then user_remove users u else users
      | none => users) = users := by
    cases hg : get_user_by_username users username with
    | none => rfl
    | some u =>
      obtain ⟨item, _, rfl⟩ := get_user_by_username_some _ _ _ hg
      simp only [user_remove_copy, ite_self]
  simp only [user_add, h1, g_ptr_array_add, user_copy]
  refine ⟨_, fun hmem => ?_, rfl⟩
  exact g_malloc0_not_mem (g_malloc0 users.ptrs :: users.ptrs) (List.mem_cons_of_mem _ hmem)

/-- The guest block of `user_find` when there is no cookie or no guest session
with the cookie: `authenticate_gmp` is called once and its return value decides
the result. -/
theorem user_find_guest_login (env : Env) (now : Int) (uuid1 uuid2 : String) (users : Users)
    (g : String) (cookie address : Option String)
    (hen : env.guest_username = some g)
    (hno : cookie = none ∨ ∀ item ∈ users, ¬ (item.2.guest = true ∧ item.2.cookie = cookie)) :
    user_find env now uuid1 uuid2 users cookie (some "guest") address =
      if (env.authenticate_gmp (some g) env.guest_password).ret = 1 then
        ⟨USER_GUEST_LOGIN_FAILED, none, users, 1⟩
      else if (env.authenticate_gmp (some g) env.guest_password).ret = 2 then
        ⟨USER_GMP_DOWN, none, users, 1⟩
      else if (env.authenticate_gmp (some g) env.guest_password).ret = -1 then
        ⟨USER_GUEST_LOGIN_ERROR, none, users, 1⟩
      else
        ⟨USER_OK,
          some (user_add env now uuid1 uuid2 users (some g) env.guest_password
            (env.authenticate_gmp (some g) env.guest_password).timezone
            (env.authenticate_gmp (some g) env.guest_password).severity
            (env.authenticate_gmp (some g) env.guest_password).role
            (env.authenticate_gmp (some g) env.guest_password).capabilities
            (env.authenticate_gmp (some g) env.guest_password).language
            (env.authenticate_gmp (some g) env.guest_password).pw_warning address).1,
          (user_add env now uuid1 uuid2 users (some g) env.guest_password
            (env.authenticate_gmp (some g) env.guest_password).timezone
            (env.authenticate_gmp (some g) env.guest_password).severity
            (env.authenticate_gmp (some g) env.guest_password).role
            (env.authenticate_gmp (some g) env.guest_password).capabilities
            (env.authenticate_gmp (some g) env.guest_password).language
            (env.authenticate_gmp (some g) env.guest_password).pw_warning address).2, 1⟩ := by
  have hscan : (if cookie.isSome then user_find_guest users cookie else none) = none := by
    rcases hno with h | h
    · simp [h]
    · have hf : users.find? (fun item => item.2.guest && str_equal item.2.cookie cookie)
          = none := by
        rw [List.find?_eq_none]
        intro item hi
        simpa [str_equal] using h item hi
      simp [user_find_guest, hf]
  simp only [user_find, hen, hscan, str_equal]
  simp

/-- C11: with guest login on, token "guest" and no cookie or no guest session
with the cookie, a result of `authenticate_gmp` that is none of 1, 2 and -1 (a
success, which is 0) makes `user_find` return `USER_OK` and a new session that
has the guest flag, the guest username, the address supplied and the new
token and cookie; the array is the old array followed by one new element that
holds this session. -/
theorem user_find_guest_created (env : Env) (now : Int) (uuid1 uuid2 : String)
    (users : Users) (g : String) (cookie address : Option String)
    (hen : env.guest_username = some g)
    (hno : cookie = none ∨ ∀ item ∈ users, ¬ (item.2.guest = true ∧ item.2.cookie = cookie))
    (h1 : (env.authenticate_gmp (some g) env.guest_password).ret ≠ 1)
    (h2 : (env.authenticate_gmp (some g) env.guest_password).ret ≠ 2)
    (h3 : (env.authenticate_gmp (some g) env.guest_password).ret ≠ -1) :
    (user_find env now uuid1 uuid2 users cookie (some "guest") address).ret = USER_OK ∧
      (user_find env now uuid1 uuid2 users cookie (some "guest") address).gmp_calls = 1 ∧
      ∃ s, (user_find env now uuid1 uuid2 users cookie (some "guest") address).user_return
          = some s ∧
        s.2.guest = true ∧ s.2.username = some g ∧ s.2.address = address ∧
        s.2.token = some uuid2 ∧ s.2.cookie = some uuid1 ∧ s.2.time = now ∧
        ∃ q, q ∉ users.ptrs ∧
          (user_find env now uuid1 uuid2 users cookie (some "guest") address).users
            = users ++ [(q, s.2)] := by
  rw [user_find_guest_login env now uuid1 uuid2 users g cookie address hen hno]
  rw [if_neg h1, if_neg h2, if_neg h3]
  refine ⟨rfl, rfl, _, rfl, ?_, ?_, ?_, ?_, ?_, ?_, ?_⟩
  · simp [user_add, hen, str_equal]
  · simp [user_add]
  · simp [user_add]
  · simp [user_add]
  · simp [user_add]
  · simp [user_add]
  · exact user_add_appends _ _ _ _ _ _ _ _ _ _ _ _ _ _

/-- Witness of C11: a guest without cookie arrives at the sample store. -/
theorem user_find_guest_created_witness :
    sample_env.guest_username = some "guest_user" ∧
      ((none : Option String) = none ∨
        ∀ item ∈ sample_users, ¬ (item.2.guest = true ∧ item.2.cookie = none)) ∧
      (sample_env.authenticate_gmp (some "guest_user") sample_env.guest_password).ret ≠ 1 ∧
      (sample_env.authenticate_gmp (some "guest_user") sample_env.guest_password).ret ≠ 2 ∧
      (sample_env.authenticate_gmp (some "guest_user") sample_env.guest_password).ret ≠ -1 ∧
      (user_find sample_env 100 "ck-n" "tok-n" sample_users none (some "guest")
        (some "10.0.0.9")).ret = USER_OK :=
  ⟨by decide, by decide, by decide, by decide, by decide,
    (user_find_guest_created sample_env 100 "ck-n" "tok-n" sample_users "guest_user" none
      (some "10.0.0.9") (by decide) (by decide) (by decide) (by decide) (by decide)).1⟩

/-- C12: on the guest login path of `user_find` the return value of
`authenticate_gmp` is mapped as follows: 1 (authentication failed) gives
`USER_GUEST_LOGIN_FAILED`, 2 (backend down) gives `USER_GMP_DOWN` and -1 (any
other error) gives `USER_GUEST_LOGIN_ERROR`; in these three cases no session is
written and the array is left as it was.  A session is written exactly when the
return value is none of the three, and then the result is `USER_OK`. -/
theorem user_find_guest_login_results (env : Env) (now : Int) (uuid1 uuid2 : String)
    (users : Users) (g : String) (cookie address : Option String)
    (hen : env.guest_username = some g)
    (hno : cookie = none ∨ ∀ item ∈ users, ¬ (item.2.guest = true ∧ item.2.cookie = cookie)) :
    ((env.authenticate_gmp (some g) env.guest_password).ret = 1 →
      (user_find env now uuid1 uuid2 users cookie (some "guest") address).ret
        = USER_GUEST_LOGIN_FAILED) ∧
    ((env.authenticate_gmp (some g) env.guest_password).ret = 2 →
      (user_find env now uuid1 uuid2 users cookie (some "guest") address).ret
        = USER_GMP_DOWN) ∧
    ((env.authenticate_gmp (some g) env.guest_password).ret = -1 →
      (user_find env now uuid1 uuid2 users cookie (some "guest") address).ret
        = USER_GUEST_LOGIN_ERROR) ∧
    ((env.authenticate_gmp (some g) env.guest_password).ret = 1 ∨
        (env.authenticate_gmp (some g) env.guest_password).ret = 2 ∨
        (env.authenticate_gmp (some g) env.guest_password).ret = -1 →
      (user_find env now uuid1 uuid2 users cookie (some "guest") address).user_return = none ∧
      (user_find env now uuid1 uuid2 users cookie (some "guest") address).users = users) ∧
    ((user_find env now uuid1 uuid2 users cookie (some "guest") address).user_return ≠ none ↔
      (env.authenticate_gmp (some g) env.guest_password).ret ≠ 1 ∧
      (env.authenticate_gmp (some g) env.guest_password).ret ≠ 2 ∧
      (env.authenticate_gmp (some g) env.guest_password).ret ≠ -1) ∧
    ((user_find env now uuid1 uuid2 users cookie (some "guest") address).user_return ≠ none →
      (user_find env now uuid1 uuid2 users cookie (some "guest") address).ret = USER_OK) := by
  rw [user_find_guest_login env now uuid1 uuid2 users g cookie address hen hno]
  by_cases h1 : (env.authenticate_gmp (some g) env.guest_password).ret = 1
  · simp [h1]
  · by_cases h2 : (env.authenticate_gmp (some g) env.guest_password).ret = 2
    · simp [h2]
    · by_cases h3 : (env.authenticate_gmp (some g) env.guest_password).ret = -1
      · simp [h3]
      · simp [h1, h2, h3]

/-- Witness of C12: the three failures and a success at the sample store. -/
theorem user_find_guest_login_results_witness :
    (env_with_reply 1).guest_username = some "guest_user" ∧
      ((none : Option String) = none ∨
        ∀ item ∈ sample_users, ¬ (item.2.guest = true ∧ item.2.cookie = none)) ∧
      (user_find (env_with_reply 1) 100 "ck-n" "tok-n" sample_users none (some "guest")
        (some "10.0.0.9")).ret = USER_GUEST_LOGIN_FAILED ∧
      (user_find (env_with_reply 2) 100 "ck-n" "tok-n" sample_users none (some "guest")
        (some "10.0.0.9")).ret = USER_GMP_DOWN ∧
      (user_find (env_with_reply (-1)) 100 "ck-n" "tok-n" sample_users none (some "guest")
        (some "10.0.0.9")).ret = USER_GUEST_LOGIN_ERROR ∧
      (user_find (env_with_reply 0) 100 "ck-n" "tok-n" sample_users none (some "guest")
        (some "10.0.0.9")).ret = USER_OK :=
  ⟨by decide, by decide,
    (user_find_guest_login_results (env_with_reply 1) 100 "ck-n" "tok-n" sample_users
      "guest_user" none (some "10.0.0.9") (by decide) (by decide)).1 (by decide),
    (user_find_guest_login_results (env_with_reply 2) 100 "ck-n" "tok-n" sample_users
      "guest_user" none (some "10.0.0.9") (by decide) (by decide)).2.1 (by decide),
    (user_find_guest_login_results (env_with_reply (-1)) 100 "ck-n" "tok-n" sample_users
      "guest_user" none (some "10.0.0.9") (by decide) (by decide)).2.2.1 (by decide),
    (user_find_guest_login_results (env_with_reply 0) 100 "ck-n" "tok-n" sample_users
      "guest_user" none (some "10.0.0.9") (by decide) (by decide)).2.2.2.2.2 (by decide)⟩

/-! ## Logging out the other sessions of a user -/

theorem ptrs_cons (item : user_ptr) (rest : Users) :
    Users.ptrs (item :: rest) = item.1 :: Users.ptrs rest := rfl

theorem mem_ptrs_of_mem (users : Users) (item : user_ptr) (h : item ∈ users) :
    item.1 ∈ users.ptrs :=
  List.mem_map_of_mem Prod.fst h

theorem g_ptr_array_remove_sublist (users : Users) (p : Ptr) :
    (g_ptr_array_remove users p).Sublist users := by
  induction users with
  | nil => exact List.Sublist.refl _
  | cons item rest ih =>
    simp only [g_ptr_array_remove]
    split_ifs
    · exact List.sublist_cons_self _ _
    · exact ih.cons₂ _

theorem g_ptr_array_remove_length (users : Users) (p : Ptr) (h : p ∈ users.ptrs) :
    (g_ptr_array_remove users p).length + 1 = users.length := by
  induction users with
  | nil => cases h
  | cons item rest ih =>
    simp only [g_ptr_array_remove]
    split_ifs with he
    · rfl
    · rw [ptrs_cons] at h
      rcases List.mem_cons.mp h with h | h
      · exact absurd h.symm he
      · simp only [List.length_cons, ih h]

/-- Removing the pointer found at `index` removes the element at `index`, when
every element of the array is an allocation of its own. -/
theorem g_ptr_array_remove_at (users : Users) (index : Nat) (item : user_ptr)
    (hn : users.ptrs.Nodup) (hi : users[index]? = some item) :
    g_ptr_array_remove users item.1 = users.eraseIdx index := by
  induction users generalizing index with
  | nil => simp at hi
  | cons a rest ih =>
    rw [ptrs_cons, List.nodup_cons] at hn
    cases index with
    | zero =>
      simp only [List.getElem?_cons_zero, Option.some.injEq] at hi
      subst hi
      simp [g_ptr_array_remove]
    | succ i =>
      simp only [List.getElem?_cons_succ] at hi
      have hmem : item ∈ rest := List.getElem?_mem hi
      have hne : ¬ a.1 = item.1 := fun e => hn.1 (e ▸ mem_ptrs_of_mem rest item hmem)
      simp only [g_ptr_array_remove, hne, if_false, List.eraseIdx_cons_succ]
      rw [ih i hn.2 hi]

theorem ptrs_nodup_of_sublist (users users1 : Users) (h : users1.Sublist users)
    (hn : users.ptrs.Nodup) : users1.ptrs.Nodup :=
  List.Nodup.sublist (h.map Prod.fst) hn

/-- The loop of `user_logout_all_sessions` ends within the bound and keeps the
elements before `index` and, of the others, those that do not match. -/
theorem user_logout_all_sessions_loop_eq (username token : Option String) (fuel : Nat) :
    ∀ (users : Users) (index : Nat), users.ptrs.Nodup → users.length - index < fuel →
      user_logout_all_sessions_loop username token fuel users index =
        some (users.take index ++
          (users.drop index).filter (fun item => !logout_all_match username token item)) := by
  induction fuel with
  | zero => intro users index _ h; omega
  | succ fuel ih =>
    intro users index hn hlen
    rw [user_logout_all_sessions_loop]
    cases hi : users[index]? with
    | none =>
      have hle : users.length ≤ index := List.getElem?_eq_none_iff.mp hi
      simp [List.take_of_length_le hle, List.drop_of_length_le hle]
    | some item =>
      have hlt : index < users.length := by
        by_contra hc
        rw [List.getElem?_eq_none (not_lt.mp hc)] at hi
        cases hi
      have hdrop : users.drop index = item :: users.drop (index + 1) := by
        rw [List.drop_eq_getElem_cons hlt]
        congr 1
        rw [List.getElem?_eq_getElem hlt] at hi
        exact Option.some.inj hi
      by_cases hm : logout_all_match username token item = true
      · simp only [hm, if_true]
        rw [g_ptr_array_remove_at users index item hn hi]
        have hlen2 : (users.eraseIdx index).length - index < fuel := by
          rw [List.length_eraseIdx_of_lt hlt]; omega
        rw [ih _ index (ptrs_nodup_of_sublist _ _ (List.eraseIdx_sublist users index) hn) hlen2]
        have htk : (users.take index).length = index := by
          rw [List.length_take]; omega
        rw [List.eraseIdx_eq_take_drop_succ, hdrop]
        have e1 : (users.take index ++ users.drop (index + 1)).take index = users.take index := by
          rw [List.take_append_eq_append_take, htk]; simp
        have e2 : (users.take index ++ users.drop (index + 1)).drop index
            = users.drop (index + 1) := by
          rw [List.drop_append_eq_append_drop, htk]; simp
        rw [e1, e2]
        simp [hm]
      · simp only [hm, if_false, Bool.false_eq_true]
        have hlen2 : users.length - (index + 1) < fuel := by omega
        rw [ih users (index + 1) hn hlen2, hdrop]
        have e3 : users.take (index + 1) = users.take index ++ [item] := by
          rw [List.take_succ, hi]; rfl
        rw [e3]
        simp [hm]

/-- The loop of `user_logout_all_sessions` ends within the bound and only
removes elements, in every array. -/
theorem user_logout_all_sessions_loop_sublist (username token : Option String) (fuel : Nat) :
    ∀ (users : Users) (index : Nat), users.length - index < fuel →
      ∃ users1, user_logout_all_sessions_loop username token fuel users index = some users1 ∧
        users1.Sublist users := by
  induction fuel with
  | zero => intro users index h; omega
  | succ fuel ih =>
    intro users index hlen
    rw [user_logout_all_sessions_loop]
    cases hi : users[index]? with
    | none => exact ⟨users, rfl, List.Sublist.refl _⟩
    | some item =>
      have hlt : index < users.length := by
        by_contra hc
        rw [List.getElem?_eq_none (not_lt.mp hc)] at hi
        cases hi
      by_cases hm : logout_all_match username token item = true
      · simp only [hm, if_true]
        have hl := g_ptr_array_remove_length users item.1
          (mem_ptrs_of_mem users item (List.getElem?_mem hi))
        obtain ⟨users1, h1, h2⟩ := ih (g_ptr_array_remove users item.1) index (by omega)
        exact ⟨users1, h1, h2.trans (g_ptr_array_remove_sublist users item.1)⟩
      · simp only [hm, if_false, Bool.false_eq_true]
        exact ih users (index + 1) (by omega)

/-- C13: in an array whose elements are allocations of their own,
`user_logout_all_sessions` returns 0 and leaves the array with exactly the
sessions removed whose username is `username` and whose token differs from
`token`; the others stay, in their order.  When tokens are unique in the array,
`get_user_by_token` finds none of the removed tokens afterwards. -/
theorem user_logout_all_sessions_removes (users : Users) (username token : Option String)
    (hn : users.ptrs.Nodup) :
    user_logout_all_sessions users username token =
        some (0, users.filter
          (fun item => decide (item.2.username ≠ username ∨ item.2.token = token))) ∧
      ((users.map (fun item => item.2.token)).Nodup →
        ∀ item ∈ users, item.2.username = username → item.2.token ≠ token →
          get_user_by_token
            (users.filter
              (fun item => decide (item.2.username ≠ username ∨ item.2.token = token)))
            item.2.token = none) := by
  have hfun : (fun item : user_ptr => !logout_all_match username token item) =
      (fun item => decide (item.2.username ≠ username ∨ item.2.token = token)) := by
    funext item
    by_cases h1 : item.2.username = username <;> by_cases h2 : item.2.token = token <;>
      simp [logout_all_match, str_equal, h1, h2]
  constructor
  · rw [user_logout_all_sessions,
      user_logout_all_sessions_loop_eq username token (users.length + 1) users 0 hn (by omega)]
    simp only [List.take_zero, List.nil_append, List.drop_zero, hfun]
  · intro htok item hi hu ht
    apply get_user_by_token_none
    intro item1 h1 heq
    rw [List.mem_filter] at h1
    have hsame : item1 = item :=
      List.inj_on_of_nodup_map htok h1.1 hi heq
    subst hsame
    have := h1.2
    simp [hu, ht] at this

/-- Witness of C13: two sessions of alice that are next to each other are
logged out, the current one and the guest stay. -/
theorem user_logout_all_sessions_removes_witness :
    crowded_users.ptrs.Nodup ∧
      user_logout_all_sessions crowded_users (some "alice") (some "tok-a")
        = some (0, [(3, guest_session), (4, alice)]) ∧
      (crowded_users.map (fun item => item.2.token)).Nodup ∧
      get_user_by_token [(3, guest_session), (4, alice)] (some "tok-a2") = none :=
  ⟨by decide,
    (user_logout_all_sessions_removes crowded_users (some "alice") (some "tok-a")
      (by decide)).1,
    by decide,
    (user_logout_all_sessions_removes crowded_users (some "alice") (some "tok-a")
      (by decide)).2 (by decide) (1, alice_second) (by decide) (by decide) (by decide)⟩

/-! ## Setters -/

/-- C14: in the store that holds the session of alice (timezone "UTC"),
`user_set_timezone` with her token and "Europe/Berlin" returns 0 and writes the
value to a copy; the array is left as it was and `get_user_by_token` afterwards
returns a session whose timezone is still "UTC". -/
theorem user_set_timezone_keeps_stored_timezone :
    (user_set_timezone [(1, alice)] (some "tok-a") (some "Europe/Berlin")).ret = 0 ∧
      (user_set_timezone [(1, alice)] (some "tok-a") (some "Europe/Berlin")).written.map
        (fun s => s.2.timezone) = some (some "Europe/Berlin") ∧
      (user_set_timezone [(1, alice)] (some "tok-a") (some "Europe/Berlin")).users
        = [(1, alice)] ∧
      (get_user_by_token
        (user_set_timezone [(1, alice)] (some "tok-a") (some "Europe/Berlin")).users
        (some "tok-a")).map (fun s => s.2.timezone) = some (some "UTC") := by
  decide

theorem get_user_by_token_eq_none_iff (users : Users) (token : Option String) :
    get_user_by_token users token = none ↔ ∀ item ∈ users, item.2.token ≠ token := by
  constructor
  · intro h item hi heq
    unfold get_user_by_token at h
    split at h
    · cases h
    · next hf =>
      rw [List.find?_eq_none] at hf
      exact hf item hi (by simp [str_equal, heq])
  · exact get_user_by_token_none users token

/-- C15: each of the four setters returns 1 exactly when no session in the
array has the token and 0 exactly when one has it, whatever the new value; the
array is left as it was (in particular when 1 is returned). -/
theorem user_set_return_values (env : Env) (users : Users) (token value : Option String) :
    (((user_set_timezone users token value).ret = 1 ↔ ∀ item ∈ users, item.2.token ≠ token) ∧
      ((user_set_timezone users token value).ret = 0 ↔ ∃ item ∈ users, item.2.token = token) ∧
      (user_set_timezone users token value).users = users) ∧
    (((user_set_password users token value).ret = 1 ↔ ∀ item ∈ users, item.2.token ≠ token) ∧
      ((user_set_password users token value).ret = 0 ↔ ∃ item ∈ users, item.2.token = token) ∧
      (user_set_password users token value).users = users) ∧
    (((user_set_severity users token value).ret = 1 ↔ ∀ item ∈ users, item.2.token ≠ token) ∧
      ((user_set_severity users token value).ret = 0 ↔ ∃ item ∈ users, item.2.token = token) ∧
      (user_set_severity users token value).users = users) ∧
    (((user_set_language env users token value).ret = 1 ↔
        ∀ item ∈ users, item.2.token ≠ token) ∧
      ((user_set_language env users token value).ret = 0 ↔
        ∃ item ∈ users, item.2.token = token) ∧
      (user_set_language env users token value).users = users) := by
  have key := get_user_by_token_eq_none_iff users token
  cases hg : get_user_by_token users token with
  | none =>
    have hall := key.mp hg
    have hnex : ¬ ∃ item ∈ users, item.2.token = token := by
      rintro ⟨item, hi, he⟩
      exact hall item hi he
    simp only [user_set_timezone, user_set_password, user_set_severity, user_set_language, hg]
    simp only [hnex, iff_false, true_iff, true_and, and_true]
    exact ⟨⟨hall, by decide⟩, ⟨hall, by decide⟩, ⟨hall, by decide⟩, hall, by decide⟩
  | some u =>
    have hnall : ¬ ∀ item ∈ users, item.2.token ≠ token := by
      intro h
      rw [key.mpr h] at hg
      cases hg
    have hex : ∃ item ∈ users, item.2.token = token := by
      by_contra hc
      exact hnall (fun item hi he => hc ⟨item, hi, he⟩)
    simp only [user_set_timezone, user_set_password, user_set_severity, user_set_language, hg]
    simp only [hnall, hex, iff_false, iff_true, true_and, and_true]
    decide

/-! ## Adding a user whose old session is expired -/

/-- C16: in the store that holds the session of alice, expired at time 2000,
`user_add` for the username alice leaves her old session in the array: the
array afterwards has two elements, the first being the expired session. -/
theorem user_add_keeps_expired_session :
    user_session_expired sample_env 2000 alice = true ∧
      (user_add sample_env 2000 "ck-n" "tok-n" [(1, alice)] (some "alice") (some "secret")
        (some "UTC") (some "nist") (some "Admin") (some "everything") (some "en") none
        (some "10.0.0.1")).2.map (fun item => (item.2.token, item.2.time))
        = [(some "tok-a", 0), (some "tok-n", 2000)] ∧
      (1, alice) ∈
        (user_add sample_env 2000 "ck-n" "tok-n" [(1, alice)] (some "alice") (some "secret")
          (some "UTC") (some "nist") (some "Admin") (some "everything") (some "en") none
          (some "10.0.0.1")).2 := by
  decide

/-- The setters leave the array as it was. -/
theorem user_set_users_eq (env : Env) (users : Users) (token value : Option String) :
    (user_set_timezone users token value).users = users ∧
      (user_set_password users token value).users = users ∧
      (user_set_severity users token value).users = users ∧
      (user_set_language env users token value).users = users := by
  simp only [user_set_timezone, user_set_password, user_set_severity, user_set_language]
  cases get_user_by_token users token <;> exact ⟨rfl, rfl, rfl, rfl⟩

/-! ## Uniqueness of tokens and cookies -/

theorem unique_ids_of_sublist (users users1 : Users) (h : users1.Sublist users)
    (hu : unique_ids users) : unique_ids users1 :=
  ⟨List.Nodup.sublist (h.map _) hu.1, List.Nodup.sublist (h.map _) hu.2⟩

theorem unique_ids_append (users : Users) (q : Ptr) (s : user) (hu : unique_ids users)
    (hc : ∀ item ∈ users, item.2.cookie ≠ s.cookie)
    (ht : ∀ item ∈ users, item.2.token ≠ s.token) :
    unique_ids (users ++ [(q, s)]) := by
  unfold unique_ids
  simp only [List.map_append, List.map_cons, List.map_nil]
  constructor
  · refine List.Nodup.append hu.1 (List.nodup_singleton _) ?_
    intro x hx hx2
    rw [List.mem_singleton] at hx2
    obtain ⟨item, hi, rfl⟩ := List.mem_map.mp hx
    exact ht item hi hx2
  · refine List.Nodup.append hu.2 (List.nodup_singleton _) ?_
    intro x hx hx2
    rw [List.mem_singleton] at hx2
    obtain ⟨item, hi, rfl⟩ := List.mem_map.mp hx
    exact hc item hi hx2

theorem unique_ids_user_add (env : Env) (now : Int) (uuid1 uuid2 : String) (users : Users)
    (username password timezone severity role capabilities language pw_warning
      address : Option String)
    (hu : unique_ids users)
    (hc : ∀ item ∈ users, item.2.cookie ≠ some uuid1)
    (ht : ∀ item ∈ users, item.2.token ≠ some uuid2) :
    unique_ids (user_add env now uuid1 uuid2 users username password timezone severity role
      capabilities language pw_warning address).2 := by
  obtain ⟨q, _, hq⟩ := user_add_appends env now uuid1 uuid2 users username password timezone
    severity role capabilities language pw_warning address
  obtain ⟨hc1, ht1, _, _⟩ := user_add_fields env now uuid1 uuid2 users username password
    timezone severity role capabilities language pw_warning address
  rw [hq]
  exact unique_ids_append users q _ hu (by rw [hc1]; exact hc) (by rw [ht1]; exact ht)

/-- The array after `user_find`: the array before, or the array after the
`user_add` of the guest. -/
theorem user_find_users (env : Env) (now : Int) (uuid1 uuid2 : String) (users : Users)
    (cookie token address : Option String) :
    (user_find env now uuid1 uuid2 users cookie token address).users = users ∨
      ∃ username password timezone severity role capabilities language pw_warning,
        (user_find env now uuid1 uuid2 users cookie token address).users =
          (user_add env now uuid1 uuid2 users username password timezone severity role
            capabilities language pw_warning address).2 := by
  unfold user_find
  simp only []
  repeat' split
  all_goals first | exact Or.inl rfl | exact Or.inr ⟨_, _, _, _, _, _, _, _, rfl⟩

/-- C17: "no two records share a token and no two share a cookie" holds after
`init_users` and is kept by `user_add` and `user_find` (when the two new
identifiers are not yet a cookie and a token of the array), by the four
setters, by `user_logout_all_sessions` (which returns), by `user_remove` and by
`logout`. -/
theorem unique_ids_kept :
    unique_ids init_users ∧
    (∀ (env : Env) (now : Int) (uuid1 uuid2 : String) (users : Users)
        (username password timezone severity role capabilities language pw_warning
          address : Option String),
      unique_ids users → (∀ item ∈ users, item.2.cookie ≠ some uuid1) →
      (∀ item ∈ users, item.2.token ≠ some uuid2) →
      unique_ids (user_add env now uuid1 uuid2 users username password timezone severity
        role capabilities language pw_warning address).2) ∧
    (∀ (env : Env) (now : Int) (uuid1 uuid2 : String) (users : Users)
        (cookie token address : Option String),
      unique_ids users → (∀ item ∈ users, item.2.cookie ≠ some uuid1) →
      (∀ item ∈ users, item.2.token ≠ some uuid2) →
      unique_ids (user_find env now uuid1 uuid2 users cookie token address).users) ∧
    (∀ (env : Env) (users : Users) (token value : Option String), unique_ids users →
      unique_ids (user_set_timezone users token value).users ∧
      unique_ids (user_set_password users token value).users ∧
      unique_ids (user_set_severity users token value).users ∧
      unique_ids (user_set_language env users token value).users) ∧
    (∀ (users : Users) (username token : Option String), unique_ids users →
      ∃ users1, user_logout_all_sessions users username token = some (0, users1) ∧
        unique_ids users1) ∧
    (∀ (users : Users) (u : user_ptr), unique_ids users → unique_ids (user_remove users u)) ∧
    (∀ (users : Users) (token : Option String), unique_ids users →
      unique_ids (logout users token).2) := by
  refine ⟨by decide, ?_, ?_, ?_, ?_, ?_, ?_⟩
  · intro env now uuid1 uuid2 users a1 a2 a3 a4 a5 a6 a7 a8 a9 hu hc ht
    exact unique_ids_user_add env now uuid1 uuid2 users a1 a2 a3 a4 a5 a6 a7 a8 a9 hu hc ht
  · intro env now uuid1 uuid2 users cookie token address hu hc ht
    rcases user_find_users env now uuid1 uuid2 users cookie token address with h | h
    · rw [h]; exact hu
    · obtain ⟨a1, a2, a3, a4, a5, a6, a7, a8, h⟩ := h
      rw [h]
      exact unique_ids_user_add env now uuid1 uuid2 users a1 a2 a3 a4 a5 a6 a7 a8 address
        hu hc ht
  · intro env users token value hu
    have h := user_set_users_eq env users token value
    rw [h.1, h.2.1, h.2.2.1, h.2.2.2]
    exact ⟨hu, hu, hu, hu⟩
  · intro users username token hu
    obtain ⟨users1, h1, h2⟩ := user_logout_all_sessions_loop_sublist username token
      (users.length + 1) users 0 (by omega)
    refine ⟨users1, ?_, unique_ids_of_sublist users users1 h2 hu⟩
    rw [user_logout_all_sessions, h1]
  · intro users u hu
    exact unique_ids_of_sublist users _ (g_ptr_array_remove_sublist users u.1) hu
  · intro users token hu
    rw [logout_users]
    exact hu

/-- Witness of C17: a login at the sample store and a mass logout at the
crowded store keep tokens and cookies unique. -/
theorem unique_ids_kept_witness :
    unique_ids sample_users ∧ (∀ item ∈ sample_users, item.2.cookie ≠ some "ck-n") ∧
      (∀ item ∈ sample_users, item.2.token ≠ some "tok-n") ∧
      unique_ids (user_add sample_env 100 "ck-n" "tok-n" sample_users (some "alice")
        (some "secret") (some "UTC") (some "nist") (some "Admin") (some "everything")
        (some "en") none (some "10.0.0.1")).2 ∧
      unique_ids crowded_users ∧
      (∃ users1, user_logout_all_sessions crowded_users (some "alice") (some "tok-a")
        = some (0, users1) ∧ unique_ids users1) :=
  ⟨by decide, by decide, by decide,
    unique_ids_kept.2.1 sample_env 100 "ck-n" "tok-n" sample_users (some "alice")
      (some "secret") (some "UTC") (some "nist") (some "Admin") (some "everything")
      (some "en") none (some "10.0.0.1") (by decide) (by decide) (by decide),
    by decide,
    unique_ids_kept.2.2.2.2.1 crowded_users (some "alice") (some "tok-a") (by decide)⟩

/-- Every element of the array is an allocation of its own after `user_add`,
when this was so before. -/
theorem ptrs_nodup_user_add (env : Env) (now : Int) (uuid1 uuid2 : String) (users : Users)
    (username password timezone severity role capabilities language pw_warning
      address : Option String) (hn : users.ptrs.Nodup) :
    (user_add env now uuid1 uuid2 users username password timezone severity role
      capabilities language pw_warning address).2.ptrs.Nodup := by
  obtain ⟨q, hq, h⟩ := user_add_appends env now uuid1 uuid2 users username password timezone
    severity role capabilities language pw_warning address
  rw [h]
  simp only [Users.ptrs, List.map_append, List.map_cons, List.map_nil]
  refine List.Nodup.append hn (List.nodup_singleton _) ?_
  intro x hx hx2
  rw [List.mem_singleton] at hx2
  exact hq (hx2 ▸ hx)

/-! ## Credentials -/

/-- C18: for a session whose username, password, role, timezone, capabilities
and token are present, `credentials_new` returns credentials whose username,
password, role, timezone, severity, capabilities, token and password warning
are those of the session, whose language and client address are the arguments,
whose guest flag is that of the session and whose `sid` is the cookie of the
session; the other fields are zero. -/
theorem credentials_new_fields (u : user_ptr) (language client_address : Option String)
    (h1 : u.2.username.isSome) (h2 : u.2.password.isSome) (h3 : u.2.role.isSome)
    (h4 : u.2.timezone.isSome) (h5 : u.2.capabilities.isSome) (h6 : u.2.token.isSome) :
    ∃ c, credentials_new u language client_address = some c ∧
      c.username = u.2.username ∧ c.password = u.2.password ∧ c.role = u.2.role ∧
      c.timezone = u.2.timezone ∧ c.severity = u.2.severity ∧
      c.capabilities = u.2.capabilities ∧ c.token = u.2.token ∧
      c.pw_warning = u.2.pw_warning ∧ c.language = language ∧
      c.client_address = client_address ∧ c.guest = u.2.guest ∧ c.sid = u.2.cookie ∧
      c.cmd_start = (0, 0) ∧ c.caller = none ∧ c.current_page = none ∧
      c.last_filt_ids = none ∧ c.params = none := by
  simp [credentials_new, h1, h2, h3, h4, h5, h6]

/-- Witness of C18: credentials for alice, in German, from another address. -/
theorem credentials_new_fields_witness :
    alice.username.isSome ∧ alice.password.isSome ∧ alice.role.isSome ∧
      alice.timezone.isSome ∧ alice.capabilities.isSome ∧ alice.token.isSome ∧
      ∃ c, credentials_new (1, alice) (some "de") (some "10.0.0.5") = some c ∧
        c.username = some "alice" ∧ c.language = some "de" ∧ c.sid = some "ck-a" :=
  ⟨by decide, by decide, by decide, by decide, by decide, by decide,
    (credentials_new_fields (1, alice) (some "de") (some "10.0.0.5") (by decide) (by decide)
      (by decide) (by decide) (by decide) (by decide)).imp
      (fun _ h => ⟨h.1, h.2.1, h.2.2.2.2.2.2.2.2.2.1, h.2.2.2.2.2.2.2.2.2.2.2.2.1⟩)⟩

/-! ## Guests whose session is expired -/

/-- C20 fails as stated: the only guest session with cookie "ck-g" is expired
at time 2000; `user_find` with that cookie and the token "guest" returns
`USER_OK` and this session, and does not call `authenticate_gmp`. -/
theorem user_find_returns_expired_guest :
    user_session_expired sample_env 2000 guest_session = true ∧
      (user_find sample_env 2000 "ck-n" "tok-n" [(1, guest_session)] (some "ck-g")
        (some "guest") (some "10.0.0.2")).ret = USER_OK ∧
      (user_find sample_env 2000 "ck-n" "tok-n" [(1, guest_session)] (some "ck-g")
        (some "guest") (some "10.0.0.2")).user_return.map (fun s => s.2.token)
        = some (some "tok-g") ∧
      (user_find sample_env 2000 "ck-n" "tok-n" [(1, guest_session)] (some "ck-g")
        (some "guest") (some "10.0.0.2")).gmp_calls = 0 := by
  decide

/-- C20, amended: with guest login on, token "guest" and a cookie supplied,
`user_find` treats the caller as a returning guest whenever a guest-flagged
session with the cookie is in the array, expired or not: it returns `USER_OK`
with a copy of the first such session in index order, the time of the copy set
to now, leaves the array as it was and does not call `authenticate_gmp`.  It
calls `authenticate_gmp` exactly when no guest-flagged session has the
cookie. -/
theorem user_find_guest_any_age (env : Env) (now : Int) (uuid1 uuid2 : String)
    (users : Users) (g C : String) (address : Option String)
    (hen : env.guest_username = some g) :
    (∀ (before after : Users) (item : user_ptr), users = before ++ item :: after →
      item.2.guest = true → item.2.cookie = some C →
      (∀ x ∈ before, ¬ (x.2.guest = true ∧ x.2.cookie = some C)) →
      (user_find env now uuid1 uuid2 users (some C) (some "guest") address).ret = USER_OK ∧
      (user_find env now uuid1 uuid2 users (some C) (some "guest") address).gmp_calls = 0 ∧
      (user_find env now uuid1 uuid2 users (some C) (some "guest") address).users = users ∧
      (user_find env now uuid1 uuid2 users (some C) (some "guest") address).user_return
        = some (g_malloc0 users.ptrs, { item.2 with time := now })) ∧
    ((∃ item ∈ users, item.2.guest = true ∧ item.2.cookie = some C) →
      (user_find env now uuid1 uuid2 users (some C) (some "guest") address).ret = USER_OK ∧
      (user_find env now uuid1 uuid2 users (some C) (some "guest") address).gmp_calls = 0 ∧
      ∃ item ∈ users, item.2.guest = true ∧ item.2.cookie = some C ∧
        (user_find env now uuid1 uuid2 users (some C) (some "guest") address).user_return.map
          Prod.snd = some { item.2 with time := now }) ∧
    ((user_find env now uuid1 uuid2 users (some C) (some "guest") address).gmp_calls = 1 ↔
      ∀ item ∈ users, ¬ (item.2.guest = true ∧ item.2.cookie = some C)) := by
  have hfound : (∃ item ∈ users, item.2.guest = true ∧ item.2.cookie = some C) →
      ∃ item ∈ users, (item.2.guest = true ∧ item.2.cookie = some C) ∧
        user_find env now uuid1 uuid2 users (some C) (some "guest") address =
          ⟨USER_OK, some (user_renew_session now (user_copy users.ptrs item)), users, 0⟩ := by
    intro hex
    have hsome : (users.find?
        (fun item => item.2.guest && str_equal item.2.cookie (some C))).isSome = true := by
      rw [List.find?_isSome]
      obtain ⟨item, hi, hguest, hc⟩ := hex
      exact ⟨item, hi, by simp [hguest, hc, str_equal]⟩
    obtain ⟨item, hfind⟩ := Option.isSome_iff_exists.mp hsome
    have hp := List.find?_some hfind
    simp only [Bool.and_eq_true, str_equal, beq_iff_eq] at hp
    exact ⟨item, List.mem_of_find?_eq_some hfind, hp,
      user_find_guest_found env now uuid1 uuid2 users g C address item hen hfind⟩
  refine ⟨?_, ?_⟩
  · intro before after item hu hguest hc hb
    have hfind : users.find? (fun item => item.2.guest && str_equal item.2.cookie (some C))
        = some item := by
      rw [List.find?_eq_some]
      refine ⟨by simp [hguest, hc, str_equal], before, after, hu, ?_⟩
      intro x hx
      have := hb x hx
      by_cases hxg : x.2.guest = true
      · have hne : ¬ x.2.cookie = some C := fun e => this ⟨hxg, e⟩
        simp [hxg, str_equal, hne]
      · simp [hxg]
    rw [user_find_guest_found env now uuid1 uuid2 users g C address item hen hfind]
    exact ⟨rfl, rfl, rfl, rfl⟩
  constructor
  · intro hex
    obtain ⟨item, hi, hp, hr⟩ := hfound hex
    rw [hr]
    exact ⟨rfl, rfl, item, hi, hp.1, hp.2, rfl⟩
  · constructor
    · intro hcalls item hi hp
      obtain ⟨item1, _, _, hr⟩ := hfound ⟨item, hi, hp⟩
      rw [hr] at hcalls
      cases hcalls
    · intro hno
      rw [user_find_guest_login env now uuid1 uuid2 users g (some C) address hen (Or.inr hno)]
      split_ifs <;> rfl

/-- Witness of the amended C20: the expired guest of the sample store comes
back at time 2000. -/
theorem user_find_guest_any_age_witness :
    sample_env.guest_username = some "guest_user" ∧
      sample_users = [(1, alice)] ++ (2, guest_session) :: [] ∧
      guest_session.guest = true ∧ guest_session.cookie = some "ck-g" ∧
      (∀ x ∈ [((1 : Ptr), alice)], ¬ (x.2.guest = true ∧ x.2.cookie = some "ck-g")) ∧
      (user_find sample_env 2000 "ck-n" "tok-n" sample_users (some "ck-g") (some "guest")
        (some "10.0.0.2")).user_return
        = some (3, { guest_session with time := 2000 }) ∧
      (∃ item ∈ sample_users, item.2.guest = true ∧ item.2.cookie = some "ck-g") ∧
      (user_find sample_env 2000 "ck-n" "tok-n" sample_users (some "ck-g") (some "guest")
        (some "10.0.0.2")).ret = USER_OK ∧
      (∀ item ∈ sample_users, ¬ (item.2.guest = true ∧ item.2.cookie = some "ck-a")) ∧
      (user_find sample_env 2000 "ck-n" "tok-n" sample_users (some "ck-a") (some "guest")
        (some "10.0.0.2")).gmp_calls = 1 :=
  ⟨by decide, by decide, by decide, by decide, by decide,
    ((user_find_guest_any_age sample_env 2000 "ck-n" "tok-n" sample_users "guest_user" "ck-g"
      (some "10.0.0.2") (by decide)).1 [(1, alice)] [] (2, guest_session)
      (by decide) (by decide) (by decide) (by decide)).2.2.2,
    by decide,
    ((user_find_guest_any_age sample_env 2000 "ck-n" "tok-n" sample_users "guest_user" "ck-g"
      (some "10.0.0.2") (by decide)).2.1 (by decide)).1,
    by decide,
    (user_find_guest_any_age sample_env 2000 "ck-n" "tok-n" sample_users "guest_user" "ck-a"
      (some "10.0.0.2") (by decide)).2.2.2 (by decide)⟩

/-! ## Lookups -/

theorem get_user_by_username_eq_none_iff (users : Users) (username : Option String) :
    get_user_by_username users username = none ↔
      ∀ item ∈ users, item.2.username ≠ username := by
  constructor
  · intro h item hi heq
    unfold get_user_by_username at h
    split at h
    · cases h
    · next hf =>
      rw [List.find?_eq_none] at hf
      exact hf item hi (by simp [str_equal, heq])
  · intro h
    have : users.find? (fun item => str_equal item.2.username username) = none := by
      rw [List.find?_eq_none]
      intro item hi
      simpa [str_equal] using h item hi
    simp [get_user_by_username, this]

/-- C21: `get_user_by_token` and `get_user_by_username` return a copy, equal
field for field and held in a new allocation, of the first element of the array
(in index order) whose token, respectively username, is the key, and return
`NULL` exactly when no element has the key.  Both only read the array: they
take it as an argument and give back nothing but the copy. -/
theorem get_user_first_match (users : Users) (k : Option String) :
    ((get_user_by_token users k = none ↔ ∀ item ∈ users, item.2.token ≠ k) ∧
      (∀ (before after : Users) (item : user_ptr), users = before ++ item :: after →
        item.2.token = k → (∀ x ∈ before, x.2.token ≠ k) →
        get_user_by_token users k = some (g_malloc0 users.ptrs, item.2))) ∧
    ((get_user_by_username users k = none ↔ ∀ item ∈ users, item.2.username ≠ k) ∧
      (∀ (before after : Users) (item : user_ptr), users = before ++ item :: after →
        item.2.username = k → (∀ x ∈ before, x.2.username ≠ k) →
        get_user_by_username users k = some (g_malloc0 users.ptrs, item.2))) ∧
    g_malloc0 users.ptrs ∉ users.ptrs := by
  refine ⟨⟨get_user_by_token_eq_none_iff users k, ?_⟩,
    ⟨get_user_by_username_eq_none_iff users k, ?_⟩, g_malloc0_not_mem _⟩
  · intro before after item hu ht hb
    have hf : users.find? (fun item => str_equal item.2.token k) = some item := by
      rw [List.find?_eq_some]
      refine ⟨by simp [str_equal, ht], before, after, hu, ?_⟩
      intro x hx
      simpa [str_equal] using hb x hx
    simp [get_user_by_token, hf, user_copy]
  · intro before after item hu ht hb
    have hf : users.find? (fun item => str_equal item.2.username k) = some item := by
      rw [List.find?_eq_some]
      refine ⟨by simp [str_equal, ht], before, after, hu, ?_⟩
      intro x hx
      simpa [str_equal] using hb x hx
    simp [get_user_by_username, hf, user_copy]

/-- Witness of C21: in the crowded store the token of alice is found behind
three other sessions, and of her three sessions the lookup by username returns
the first. -/
theorem get_user_first_match_witness :
    crowded_users
        = [(1, alice_second), (2, alice_third), (3, guest_session)] ++ (4, alice) :: [] ∧
      alice.token = some "tok-a" ∧
      (∀ x ∈ [((1 : Ptr), alice_second), (2, alice_third), (3, guest_session)],
        x.2.token ≠ some "tok-a") ∧
      get_user_by_token crowded_users (some "tok-a") = some (5, alice) ∧
      crowded_users
        = [] ++ (1, alice_second) :: [(2, alice_third), (3, guest_session), (4, alice)] ∧
      alice_second.username = some "alice" ∧
      (∀ x ∈ ([] : Users), x.2.username ≠ some "alice") ∧
      get_user_by_username crowded_users (some "alice") = some (5, alice_second) :=
  ⟨by decide, by decide, by decide,
    (get_user_first_match crowded_users (some "tok-a")).1.2
      [(1, alice_second), (2, alice_third), (3, guest_session)] [] (4, alice)
      (by decide) (by decide) (by decide),
    by decide, by decide, by decide,
    (get_user_first_match crowded_users (some "alice")).2.1.2
      [] [(2, alice_third), (3, guest_session), (4, alice)] (1, alice_second)
      (by decide) (by decide) (by decide)⟩

end Gsad
